import Mathlib

/-!
Shallow embedding of the PDF proposal extraction pipeline of this
repository: the class `ProposalExtractorGemini`, implemented twice with
variations as `src/main.py` and `src/main1.py`.

The embedding models:
  * TPN normalization of an Excel cell value (`normalize_tpn`),
  * TPN extraction from a candidate PDF filename (the regular
    expressions of `extract_tpn_from_filename` in each file),
  * the `pdf_map` dictionary built by `update_excel_with_proposals`
    (`buildMap` / `mapGet`) and candidate resolution
    (exact lookup, then substring fallback: `resolve_pdfs`),
  * `extract_from_pdf` in each file, with the external service
    (upload / generate / delete) and Python's `json.loads` given as an
    oracle environment (`Svc` and a decode function `jl`), producing the
    result together with a trace of service events (`Ev`),
  * the per-row update loop of `update_excel_with_proposals` in each
    file (`processRow`, `update_excel_with_proposals`), acting on a
    worksheet modelled as a cell map (`Sheet`) and producing the trace
    of service calls, saves, and diagnostics (`LogM`).

Machinery shared verbatim between the two source files (the TPN
normalization, the dictionary building, the resolution logic) is defined
once; behavior that differs lives in the namespaces `Main` (src/main.py)
and `Main1` (src/main1.py).
-/

/-- Characters of a needle compared against the front of a haystack:
Python's `s.startswith(t)`, on explicit character lists. -/
def startsAux : List Char → List Char → Bool
  | [], _ => true
  | _ :: _, [] => false
  | a :: as, b :: bs => a == b && startsAux as bs

/-- Python's substring test `t in s` (true for the empty needle),
scanning every suffix of the haystack. -/
def subOf : List Char → List Char → Bool
  | [], _ => true
  | _ :: _, [] => false
  | n, c :: cs => startsAux n (c :: cs) || subOf n cs

/-- Whitespace trimming on a character list: Python's `str.strip()`. -/
def trimL (l : List Char) : List Char :=
  ((l.dropWhile Char.isWhitespace).reverse.dropWhile Char.isWhitespace).reverse

/-- Python's `str.strip()`. -/
def pyStrip (s : String) : String := String.mk (trimL s.data)

/-- Drop the last `n` characters of a list (used for stripping a closing
code fence, Python's `rsplit(x, 1)[0]` when the string ends with `x`). -/
def dropRightL (l : List Char) (n : Nat) : List Char := l.take (l.length - n)

/-- Python's `s.endswith(t)`, on explicit character lists. -/
def endsAux (suf l : List Char) : Bool := startsAux suf.reverse l.reverse

/-- Value of the `TPN No.` cell of one Excel row, as pandas delivers it:
missing (`NaN`), a float (carrying `srepr`, Python's `str()` rendering of
that float, as environment data), or a string. -/
inductive TpnCell where
  | blank : TpnCell
  | float (q : ℚ) (srepr : String) : TpnCell
  | str (s : String) : TpnCell
  deriving DecidableEq

/-- TPN normalization, identical in src/main.py lines 216-223 and
src/main1.py lines 146-154: a missing value is skipped (`None` here), an
integral float renders as `str(int(v))`, anything else as
`str(v).strip()`. -/
def normalize_tpn : TpnCell → Option String
  | .blank => none
  | .float q srepr => some (if q.den = 1 then toString q.num else pyStrip srepr)
  | .str s => some (pyStrip s)

/-- A candidate PDF discovered by the directory glob, identified by its
filename (`pf.name` in the source). The list of candidates is kept in
discovery order. -/
structure Pdf where
  name : String
  deriving DecidableEq

/-- A decoded JSON object of string fields, the shape of a successful
`json.loads` on the model's response (the ExtractionResult of the spec):
an association list modelling the Python dict. -/
abbrev JObj := List (String × String)

/-- The worksheet, addressed like openpyxl by column letter and row
number; `none` is an empty cell. -/
abbrev Sheet := String → Nat → Option String

/-- Assignment `ws[f'{c}{r}'] = v`. -/
def setCell (ws : Sheet) (c : String) (r : Nat) (v : String) : Sheet :=
  fun c' r' => if c' = c ∧ r' = r then some v else ws c' r'

/-- Observable events of a run: calls to the external service
(`genai.upload_file`, `generate_content`, `pdf_file.delete()` with
whether the delete raised), the backoff sleeps with their duration in
seconds, and workbook saves (`wb.save(output_path)`). -/
inductive Ev where
  | uploadCall : Ev
  | genCall : Ev
  | sleep (d : ℚ) : Ev
  | deleteCall (ok : Bool) : Ev
  | save : Ev
  deriving DecidableEq

/-- Outcome of one `generate_content` call: a raised transport error, or
a response whose text portion is `text`. -/
inductive GenOut where
  | raise : GenOut
  | resp (text : String) : GenOut
  deriving DecidableEq

/-- Console diagnostics of the row loop. -/
inductive LogM where
  | alreadyFilled (r : Nat) : LogM
  | emptyTpn (r : Nat) : LogM
  | noPdf (tpn : String) (r : Nat) : LogM
  | multiplePdfs (tpn : String) (name : String) : LogM
  | processing (r : Nat) (tpn : String) (name : String) : LogM
  | updated (r : Nat) : LogM
  | extractFailed (name : String) : LogM
  deriving DecidableEq

/-- Oracle for the external service: whether the i-th upload attempt
succeeds, the outcome of the i-th generation attempt, whether the i-th
delete call succeeds, and the jitter streams drawn by `random()` in the
upload and generation retry loops. -/
structure Svc where
  uploadOk : Nat → Bool
  gen : Nat → GenOut
  deleteOk : Nat → Bool
  rndU : Nat → ℚ
  rndG : Nat → ℚ

/-- Search for the pattern `(?<=ProposalID_)\d+(?=_finalproposal)`: the
first position preceded by `ProposalID_` whose maximal digit run is
nonempty and followed by `_finalproposal` (the greedy `\d+` with that
lookahead can only match the maximal run). -/
def tpnScan : List Char → Option String
  | [] => none
  | c :: cs =>
    if startsAux ("ProposalID_".data) (c :: cs) then
      let rest := (c :: cs).drop 11
      let ds := rest.takeWhile Char.isDigit
      if (!ds.isEmpty) && startsAux ("_finalproposal".data) (rest.drop ds.length) then
        some (String.mk ds)
      else tpnScan cs
    else tpnScan cs

/-- Search for the pattern `\d+`: the first maximal digit run. -/
def firstDigits : List Char → Option String
  | [] => none
  | c :: cs =>
    if c.isDigit then some (String.mk ((c :: cs).takeWhile Char.isDigit))
    else firstDigits cs

/-- Key under which `update_excel_with_proposals` files a candidate in
`pdf_map`: the TPN extracted from the filename when the pattern matches
(`keyOf`, per source file), otherwise the full filename. -/
def mapKey (keyOf : String → Option String) (pf : Pdf) : String :=
  (keyOf pf.name).getD pf.name

/-- One `pdf_map.setdefault(key, []).append(pf)` on an association-list
model of the Python dict. -/
def mapInsert : List (String × List Pdf) → String → Pdf → List (String × List Pdf)
  | [], k, p => [(k, [p])]
  | (k', l) :: rest, k, p =>
    if k' = k then (k', l ++ [p]) :: rest
    else (k', l) :: mapInsert rest k p

/-- Dictionary lookup `pdf_map.get(k)`, with a missing key and an empty
list collapsed (both are falsy at the use site). -/
def mapGet : List (String × List Pdf) → String → List Pdf
  | [], _ => []
  | (k', l) :: rest, k => if k' = k then l else mapGet rest k

/-- The `pdf_map` built over the discovered files, in discovery order
(src/main.py lines 195-201, src/main1.py lines 127-134). -/
def buildMap (keyOf : String → Option String) (files : List Pdf) : List (String × List Pdf) :=
  files.foldl (fun m pf => mapInsert m (mapKey keyOf pf) pf) []

/-- Candidate resolution for one normalized TPN, identical in structure
in both files: exact lookup in `pdf_map` first; only when that is empty
(or the key absent), the fallback scan selecting every discovered file
whose name contains the TPN as a substring (src/main.py lines 225-229,
src/main1.py lines 156-163). -/
def resolve_pdfs (keyOf : String → Option String) (files : List Pdf) (tpn : String) : List Pdf :=
  match mapGet (buildMap keyOf files) tpn with
  | [] => files.filter (fun pf => subOf tpn.data pf.name.data)
  | found => found

/-- The 17 schema columns L..AB with the JSON key each one is populated
from (src/main.py lines 242-258). -/
def schema_cols : List (String × String) :=
  [("L", "col_l"), ("M", "col_m"), ("N", "col_n"), ("O", "col_o"),
   ("P", "col_p"), ("Q", "col_q"), ("R", "col_r"), ("S", "col_s"),
   ("T", "col_t"), ("U", "col_u"), ("V", "col_v"), ("W", "col_w"),
   ("X", "col_x"), ("Y", "col_y"), ("Z", "col_z"),
   ("AA", "col_aa"), ("AB", "col_ab")]

/-- One Excel data row as the pandas DataFrame presents it: the value of
the column headed `Has the institution specified minimum of two faculty
members ...` (the column the sheet stores in column V, used as the
already-processed marker), and the `TPN No.` cell. -/
structure Row where
  facultyCell : Option String
  tpn : TpnCell

namespace Main

/-- TPN extraction of src/main.py lines 273-282: only the strict
`(?<=ProposalID_)\d+(?=_finalproposal)` pattern, no fallback. -/
def extract_tpn_from_filename (filename : String) : Option String :=
  tpnScan filename.data

/-- Response normalization of src/main.py lines 112-122: strip, remove a
leading ` ```json ` fence (7 characters), then a leading ` ``` ` fence,
then a trailing ` ``` ` fence, strip again. -/
def normalize_response (s : String) : String :=
  let t0 := pyStrip s
  let t1 := if startsAux ("```json".data) t0.data then String.mk (t0.data.drop 7) else t0
  let t2 := if startsAux ("```".data) t1.data then String.mk (t1.data.drop 3) else t1
  let t3 := if endsAux ("```".data) t2.data then String.mk (dropRightL t2.data 3) else t2
  pyStrip t3

/-- Upload retry loop of src/main.py lines 87-101. `fuel` is the number
of loop iterations still allowed (`max_retries + 1 - a` at counter `a`);
on a failed attempt the counter is incremented and the backoff
`2 ** upload_attempts + random()` is slept, including after the final
failed attempt. Returns whether a file handle was obtained, with the
event trace. -/
def upload_loop (o : Svc) : Nat → Nat → Bool × List Ev
  | 0, _ => (false, [])
  | fuel + 1, a =>
    if o.uploadOk a then (true, [.uploadCall])
    else
      let rec' := upload_loop o fuel (a + 1)
      (rec'.1, .uploadCall :: .sleep (2 ^ (a + 1) + o.rndU a) :: rec'.2)

/-- Generation retry loop of src/main.py lines 104-167, with `jl` the
outcome of `json.loads` on a given text. Each attempt calls
`generate_content`; a raised transport error or a JSON decode failure on
the normalized text sleeps `2 ** (attempt + 1) + random()` and retries
while `attempt < max_retries` (here: while `fuel ≠ 0`), and otherwise
deletes the uploaded handle (exception swallowed) and returns `None`;
on a successful decode the handle is deleted (swallowed) and the data
returned. -/
def gen_loop (o : Svc) (jl : String → Option JObj) : Nat → Nat → Option JObj × List Ev
  | 0, _ => (none, [])
  | fuel + 1, a =>
    match o.gen a with
    | .raise =>
      if fuel = 0 then (none, [.genCall, .deleteCall (o.deleteOk 0)])
      else
        let rec' := gen_loop o jl fuel (a + 1)
        (rec'.1, .genCall :: .sleep (2 ^ (a + 1) + o.rndG a) :: rec'.2)
    | .resp t =>
      match jl (normalize_response t) with
      | some data => (some data, [.genCall, .deleteCall (o.deleteOk 0)])
      | none =>
        if fuel = 0 then (none, [.genCall, .deleteCall (o.deleteOk 0)])
        else
          let rec' := gen_loop o jl fuel (a + 1)
          (rec'.1, .genCall :: .sleep (2 ^ (a + 1) + o.rndG a) :: rec'.2)

/-- src/main.py `extract_from_pdf` (lines 74-167): the upload phase with
its own retry loop, then, only if a handle was obtained, the generation
phase; an exhausted upload loop returns `None` without any generation
call. -/
def extract_from_pdf (o : Svc) (jl : String → Option JObj) (max_retries : Nat) :
    Option JObj × List Ev :=
  let up := upload_loop o (max_retries + 1) 0
  if up.1 then
    let g := gen_loop o jl (max_retries + 1) 0
    (g.1, up.2 ++ g.2)
  else (none, up.2)

/-- The 17 cell writes of src/main.py lines 242-258: every schema column
L..AB receives `extracted_data.get(key, '-')`. -/
def update_row (data : JObj) (ws : Sheet) (r : Nat) : Sheet :=
  schema_cols.foldl (fun w ck => setCell w ck.1 r ((data.lookup ck.2).getD "-")) ws

/-- One iteration of the row loop of src/main.py lines 207-267, with the
extraction call abstracted as `ext` (instantiated with
`extract_from_pdf` under an oracle). In order: skip when the designated
already-processed cell is non-NaN (line 211); skip when the TPN is NaN;
normalize the TPN; resolve candidates; pick the first match (no
ambiguity diagnostic exists in this file); run extraction; on a truthy
result write all 17 columns, otherwise log a failure; in either case
`wb.save(output_path)` (line 266). Returns the worksheet, the event
trace and the diagnostics. -/
def processRow (ext : Pdf → Option JObj × List Ev) (files : List Pdf)
    (ws : Sheet) (row : Row) (r : Nat) : Sheet × List Ev × List LogM :=
  if row.facultyCell.isSome then (ws, [], [.alreadyFilled r])
  else
    match normalize_tpn row.tpn with
    | none => (ws, [], [.emptyTpn r])
    | some tpn =>
      match resolve_pdfs extract_tpn_from_filename files tpn with
      | [] => (ws, [], [.noPdf tpn r])
      | pdf :: _ =>
        let res := ext pdf
        match res.1 with
        | some data =>
          if data.isEmpty then
            (ws, res.2 ++ [.save], [.processing r tpn pdf.name, .extractFailed pdf.name])
          else
            (update_row data ws r, res.2 ++ [.save], [.processing r tpn pdf.name, .updated r])
        | none =>
          (ws, res.2 ++ [.save], [.processing r tpn pdf.name, .extractFailed pdf.name])

/-- The row loop of src/main.py `update_excel_with_proposals`: rows are
processed in order starting at Excel row `r` (row 6 for the first data
row), threading the worksheet and concatenating traces and diagnostics
per record. -/
def update_excel_with_proposals (ext : Pdf → Option JObj × List Ev) (files : List Pdf) :
    Sheet → Nat → List Row → Sheet × List Ev × List LogM
  | ws, _, [] => (ws, [], [])
  | ws, r, row :: rest =>
    let step := processRow ext files ws row r
    let k := update_excel_with_proposals ext files step.1 (r + 1) rest
    (k.1, step.2.1 ++ k.2.1, step.2.2 ++ k.2.2)

end Main

namespace Main1

/-- TPN extraction of src/main1.py lines 209-223: the strict
`(?<=ProposalID_)\d+(?=_finalproposal)` pattern, with a digits-only
fallback `\d+`. -/
def extract_tpn_from_filename (filename : String) : Option String :=
  match tpnScan filename.data with
  | some t => some t
  | none => firstDigits filename.data

/-- Response normalization of src/main1.py lines 52-61: no initial
strip; a leading ` ```json ` fence or else a leading ` ``` ` fence is
removed, then a trailing ` ``` ` fence, then strip. -/
def normalize_response (s : String) : String :=
  let t1 :=
    if startsAux ("```json".data) s.data then String.mk (s.data.drop 7)
    else if startsAux ("```".data) s.data then String.mk (s.data.drop 3)
    else s
  let t2 := if endsAux ("```".data) t1.data then String.mk (dropRightL t1.data 3) else t1
  pyStrip t2

/-- The 15 required keys checked by src/main1.py lines 67-71. -/
def required_fields : List String :=
  ["col_l", "col_m", "col_n", "col_o", "col_p", "col_q", "col_r", "col_s",
   "col_t", "col_u", "col_v", "col_w", "col_x", "col_y", "col_z"]

/-- src/main1.py `extract_from_pdf` (lines 22-92). Everything sits in
one `for attempt in range(max_retries + 1)` loop whose body uploads,
generates, decodes and validates; a raised upload or generation error
and a JSON decode failure each return `None` immediately (the `except`
clauses do not retry); only missing required fields retry while
`attempt < max_retries` (re-uploading, without releasing the previous
handle); the accepted result is returned after an unprotected
`pdf_file.delete()`, so a raised delete lands in the generic `except`
and turns the call into `None`. -/
def extract_from_pdf (o : Svc) (jl : String → Option JObj) : Nat → Nat → Option JObj × List Ev
  | 0, _ => (none, [])
  | fuel + 1, a =>
    if !o.uploadOk a then (none, [.uploadCall])
    else
      match o.gen a with
      | .raise => (none, [.uploadCall, .genCall])
      | .resp t =>
        match jl (normalize_response t) with
        | none => (none, [.uploadCall, .genCall])
        | some data =>
          let missing := required_fields.filter (fun k => (data.lookup k).isNone)
          if !missing.isEmpty && fuel != 0 then
            let rec' := extract_from_pdf o jl fuel (a + 1)
            (rec'.1, .uploadCall :: .genCall :: rec'.2)
          else if o.deleteOk a then (some data, [.uploadCall, .genCall, .deleteCall true])
          else (none, [.uploadCall, .genCall, .deleteCall false])

/-- The 15 cell writes of src/main1.py lines 181-195: columns L..Z only;
AA and AB are never touched in this file. -/
def update_row (data : JObj) (ws : Sheet) (r : Nat) : Sheet :=
  (schema_cols.take 15).foldl (fun w ck => setCell w ck.1 r ((data.lookup ck.2).getD "-")) ws

/-- One iteration of the row loop of src/main1.py lines 137-201. There
is no already-processed check: every row with a non-NaN TPN is matched
and extracted. An ambiguity diagnostic is printed when more than one
candidate matched (lines 170-171) before the first is picked. No save
happens inside the loop. -/
def processRow (ext : Pdf → Option JObj × List Ev) (files : List Pdf)
    (ws : Sheet) (row : Row) (r : Nat) : Sheet × List Ev × List LogM :=
  match normalize_tpn row.tpn with
  | none => (ws, [], [.emptyTpn r])
  | some tpn =>
    match resolve_pdfs extract_tpn_from_filename files tpn with
    | [] => (ws, [], [.noPdf tpn r])
    | pdf :: rest =>
      let amb : List LogM := if rest.isEmpty then [] else [.multiplePdfs tpn pdf.name]
      let res := ext pdf
      match res.1 with
      | some data =>
        if data.isEmpty then
          (ws, res.2, amb ++ [.processing r tpn pdf.name, .extractFailed pdf.name])
        else
          (update_row data ws r, res.2, amb ++ [.processing r tpn pdf.name, .updated r])
      | none =>
        (ws, res.2, amb ++ [.processing r tpn pdf.name, .extractFailed pdf.name])

/-- The row loop of src/main1.py without the trailing save. -/
def row_loop (ext : Pdf → Option JObj × List Ev) (files : List Pdf) :
    Sheet → Nat → List Row → Sheet × List Ev × List LogM
  | ws, _, [] => (ws, [], [])
  | ws, r, row :: rest =>
    let step := processRow ext files ws row r
    let k := row_loop ext files step.1 (r + 1) rest
    (k.1, step.2.1 ++ k.2.1, step.2.2 ++ k.2.2)

/-- src/main1.py `update_excel_with_proposals` row phase: the loop over
all rows followed by the single `wb.save(output_path)` of lines 203-204,
batched after the loop. -/
def update_excel_with_proposals (ext : Pdf → Option JObj × List Ev) (files : List Pdf)
    (ws : Sheet) (r : Nat) (rows : List Row) : Sheet × List Ev × List LogM :=
  let k := row_loop ext files ws r rows
  (k.1, k.2.1 ++ [.save], k.2.2)

end Main1

/-! Concrete fixtures: worksheets, candidate files, rows, decoded
objects and service oracles used to evaluate the model on closed
inputs. -/

/-- An all-empty worksheet. -/
def ws0 : Sheet := fun _ _ => none

/-- A candidate whose filename carries TPN 500 in the strict pattern. -/
def pdfA : Pdf := ⟨"ProposalID_500_finalproposal.pdf"⟩

/-- A second candidate that also carries TPN 500. -/
def pdfB : Pdf := ⟨"ProposalID_500_finalproposal_v2.pdf"⟩

/-- A candidate carrying TPN 501. -/
def pdfC : Pdf := ⟨"ProposalID_501_finalproposal.pdf"⟩

/-- A candidate carrying TPN 135236. -/
def pdfD : Pdf := ⟨"ProposalID_135236_finalproposal.pdf"⟩

/-- One unambiguous candidate for TPN 500. -/
def exFiles : List Pdf := [pdfA]

/-- Two candidates both matching TPN 500 (ambiguous). -/
def exFiles2 : List Pdf := [pdfA, pdfB]

/-- Candidates for TPNs 500 and 501. -/
def exFilesAB : List Pdf := [pdfA, pdfC]

/-- One candidate for TPN 135236. -/
def exFiles135 : List Pdf := [pdfD]

/-- A fresh row with TPN 500. -/
def row500 : Row := ⟨none, .str "500"⟩

/-- A fresh row with TPN 501. -/
def row501 : Row := ⟨none, .str "501"⟩

/-- A fresh row whose TPN matches no candidate. -/
def row999 : Row := ⟨none, .str "999"⟩

/-- A row whose already-processed marker column is filled. -/
def rowFilled : Row := ⟨some "Yes", .str "500"⟩

/-- A fully populated extraction result (all 17 schema keys). -/
def exData : JObj :=
  [("col_l", "Yes"), ("col_m", "No"), ("col_n", "None"), ("col_o", "Yes"),
   ("col_p", "45"), ("col_q", "120"), ("col_r", "Yes"), ("col_s", "3.25"),
   ("col_t", "UGC"), ("col_u", "Yes"), ("col_v", "Yes"), ("col_w", "Yes"),
   ("col_x", "Yes"), ("col_y", "Yes"), ("col_z", "Yes"),
   ("col_aa", "12(ok)"), ("col_ab", "13(ok)")]

/-- A `json.loads` oracle: the response text `T` decodes to `exData`,
everything else fails to decode. -/
def jlGood : String → Option JObj := fun s => if s = "T" then some exData else none

/-- A `json.loads` oracle on which every text fails to decode. -/
def jlNone : String → Option JObj := fun _ => none

/-- A `json.loads` oracle under which the response text is the empty
JSON object: it decodes, to an empty mapping. -/
def jlEmptyObj : String → Option JObj := fun s => if s = "\x7b\x7d" then some [] else none

/-- A `json.loads` oracle where `U` decodes to `exData` and everything
else (in particular the first response `T`) fails to decode. -/
def jlSecond : String → Option JObj := fun s => if s = "U" then some exData else none

/-- A service where everything succeeds and the response text is `T`. -/
def svcOK : Svc := ⟨fun _ => true, fun _ => .resp "T", fun _ => true, fun _ => 0, fun _ => 0⟩

/-- Like `svcOK` but every `delete` call raises. -/
def svcDelFail : Svc := ⟨fun _ => true, fun _ => .resp "T", fun _ => false, fun _ => 0, fun _ => 0⟩

/-- A service whose upload raises on the first two attempts and succeeds
from the third on. -/
def svcUp3 : Svc :=
  ⟨fun n => decide (2 ≤ n), fun _ => .resp "T", fun _ => true, fun _ => 0, fun _ => 0⟩

/-- A service whose upload raises on every attempt. -/
def svcFail : Svc := ⟨fun _ => false, fun _ => .raise, fun _ => true, fun _ => 0, fun _ => 0⟩

/-- A service that always answers with the empty JSON object text. -/
def svcEmptyObj : Svc :=
  ⟨fun _ => true, fun _ => .resp "\x7b\x7d", fun _ => true, fun _ => 0, fun _ => 0⟩

/-- A service answering `T` (undecodable under `jlSecond`) on the first
generation attempt and `U` afterwards. -/
def svcSecond : Svc :=
  ⟨fun _ => true, fun n => if n = 0 then .resp "T" else .resp "U", fun _ => true,
   fun _ => 0, fun _ => 0⟩

/-- The src/main.py extractor under the all-success oracle. -/
def extMainOK : Pdf → Option JObj × List Ev := fun _ => Main.extract_from_pdf svcOK jlGood 2

/-- The src/main.py extractor receiving the empty JSON object. -/
def extMainEmpty : Pdf → Option JObj × List Ev :=
  fun _ => Main.extract_from_pdf svcEmptyObj jlEmptyObj 2

/-- The src/main1.py extractor under the all-success oracle
(`max_retries = 2`, so initial fuel 3, attempt counter 0). -/
def extM1OK : Pdf → Option JObj × List Ev := fun _ => Main1.extract_from_pdf svcOK jlGood 3 0

/-- The src/main1.py extractor when no response text decodes. -/
def extM1None : Pdf → Option JObj × List Ev := fun _ => Main1.extract_from_pdf svcOK jlNone 3 0

/-- The worksheet produced by one successful src/main.py row update. -/
def wsAfter : Sheet := (Main.processRow extMainOK exFiles ws0 row500 6).1

/-- Row 500 as a second run re-reads it from `wsAfter`: the
already-processed marker column holds what the first run wrote in
column V. -/
def rowAfter : Row := ⟨wsAfter "V" 6, .str "500"⟩

/-! Helper lemmas about the cell-write fold and the `pdf_map`
dictionary. -/

/-- Columns not named in the write list keep their cell contents. -/
lemma fold_set_notin (data : JObj) (r : Nat) :
    ∀ (L : List (String × String)) (ws : Sheet) (c : String) (rr : Nat),
      c ∉ L.map Prod.fst →
      (L.foldl (fun w ck => setCell w ck.1 r ((data.lookup ck.2).getD "-")) ws) c rr = ws c rr := by
  intro L
  induction L with
  | nil => intro ws c rr _; rfl
  | cons x L ih =>
    intro ws c rr h
    simp only [List.map_cons, List.mem_cons, not_or] at h
    simp only [List.foldl_cons]
    rw [ih _ _ _ h.2]
    simp [setCell, h.1]

/-- Every column named in a duplicate-free write list receives exactly
`data.get(key, '-')`. -/
lemma fold_set_mem (data : JObj) (r : Nat) :
    ∀ (L : List (String × String)) (ws : Sheet) (ck : String × String),
      (L.map Prod.fst).Nodup → ck ∈ L →
      (L.foldl (fun w x => setCell w x.1 r ((data.lookup x.2).getD "-")) ws) ck.1 r
        = some ((data.lookup ck.2).getD "-") := by
  intro L
  induction L with
  | nil => intro ws ck _ h; cases h
  | cons x L ih =>
    intro ws ck hnd hmem
    simp only [List.map_cons, List.nodup_cons] at hnd
    simp only [List.foldl_cons]
    rcases List.mem_cons.mp hmem with h | h
    · subst h
      rw [fold_set_notin data r L _ _ _ hnd.1]
      simp [setCell]
    · exact ih _ _ hnd.2 h

/-- A `setdefault`-append touches exactly the entry of its key. -/
lemma mapGet_insert (k' : String) (p : Pdf) (k : String) :
    ∀ m : List (String × List Pdf),
      mapGet (mapInsert m k' p) k
        = if k' = k then mapGet m k ++ [p] else mapGet m k := by
  intro m
  induction m with
  | nil => by_cases h : k' = k <;> simp [mapInsert, mapGet, h]
  | cons e m ih =>
    obtain ⟨ke, le⟩ := e
    by_cases h1 : ke = k'
    · subst h1
      by_cases h2 : ke = k
      · subst h2
        simp [mapInsert, mapGet]
      · simp [mapInsert, mapGet, h2]
    · by_cases h2 : ke = k
      · subst h2
        have h3 : ¬ k' = ke := fun hh => h1 hh.symm
        simp [mapInsert, mapGet, h1, h3]
      · simp [mapInsert, mapGet, h1, h2, ih]

/-- Folding the dictionary insertions over the file list appends, per
key, exactly the files carrying that key, in discovery order. -/
lemma foldl_mapInsert_get (keyOf : String → Option String) (k : String) :
    ∀ (files : List Pdf) (m : List (String × List Pdf)),
      mapGet (files.foldl (fun m pf => mapInsert m (mapKey keyOf pf) pf) m) k
        = mapGet m k ++ files.filter (fun pf => mapKey keyOf pf == k) := by
  intro files
  induction files with
  | nil => intro m; simp
  | cons pf files ih =>
    intro m
    simp only [List.foldl_cons, List.filter_cons]
    rw [ih, mapGet_insert]
    by_cases h : mapKey keyOf pf = k
    · simp [h]
    · simp [h]

/-- The dictionary lookup in `pdf_map` returns exactly the discovered
files whose key matches, in discovery order. -/
lemma buildMap_get (keyOf : String → Option String) (files : List Pdf) (k : String) :
    mapGet (buildMap keyOf files) k = files.filter (fun pf => mapKey keyOf pf == k) := by
  have h := foldl_mapInsert_get keyOf k files []
  simpa [buildMap, mapGet] using h

/-- When the exact dictionary lookup is non-empty, resolution returns it
and the fallback scan is not consulted. -/
lemma resolve_exact (keyOf : String → Option String) (files : List Pdf) (tpn : String)
    (h : mapGet (buildMap keyOf files) tpn ≠ []) :
    resolve_pdfs keyOf files tpn = mapGet (buildMap keyOf files) tpn := by
  unfold resolve_pdfs
  cases hm : mapGet (buildMap keyOf files) tpn with
  | nil => exact absurd hm h
  | cons a l => rfl

/-- When the exact lookup is empty, resolution is the substring scan
over all discovered files. -/
lemma resolve_fallback (keyOf : String → Option String) (files : List Pdf) (tpn : String)
    (h : mapGet (buildMap keyOf files) tpn = []) :
    resolve_pdfs keyOf files tpn = files.filter (fun pf => subOf tpn.data pf.name.data) := by
  unfold resolve_pdfs
  rw [h]

/-! Helper lemmas about the retry loops of src/main.py's
`extract_from_pdf`. -/

/-- When every upload attempt raises, the upload loop fails after making
exactly `fuel` upload calls, never calls generation, and never saves. -/
lemma upload_loop_fail (o : Svc) (h : ∀ i, o.uploadOk i = false) :
    ∀ (fuel a : Nat),
      (Main.upload_loop o fuel a).1 = false ∧
      (Main.upload_loop o fuel a).2.count Ev.uploadCall = fuel ∧
      Ev.genCall ∉ (Main.upload_loop o fuel a).2 := by
  intro fuel
  induction fuel with
  | zero => intro a; simp [Main.upload_loop]
  | succ fuel ih =>
    intro a
    have h1 := ih (a + 1)
    simp [Main.upload_loop, h a, List.count_cons, h1.1, h1.2.1, h1.2.2]

/-- The upload loop never emits a save event. -/
lemma upload_loop_no_save (o : Svc) : ∀ (fuel a : Nat),
    Ev.save ∉ (Main.upload_loop o fuel a).2 := by
  intro fuel
  induction fuel with
  | zero => intro a; simp [Main.upload_loop]
  | succ fuel ih =>
    intro a
    cases hb : o.uploadOk a with
    | true => simp [Main.upload_loop, hb]
    | false => simp [Main.upload_loop, hb, ih (a + 1)]

/-- The generation loop never emits a save event. -/
lemma gen_loop_no_save (o : Svc) (jl : String → Option JObj) : ∀ (fuel a : Nat),
    Ev.save ∉ (Main.gen_loop o jl fuel a).2 := by
  intro fuel
  induction fuel with
  | zero => intro a; simp [Main.gen_loop]
  | succ fuel ih =>
    intro a
    cases hg : o.gen a with
    | raise =>
      by_cases hf : fuel = 0
      · subst hf; simp [Main.gen_loop, hg]
      · simp [Main.gen_loop, hg, hf, ih (a + 1)]
    | resp t =>
      cases hj : jl (Main.normalize_response t) with
      | some data => simp [Main.gen_loop, hg, hj]
      | none =>
        by_cases hf : fuel = 0
        · subst hf; simp [Main.gen_loop, hg, hj]
        · simp [Main.gen_loop, hg, hj, hf, ih (a + 1)]

/-- Once entered, the generation loop always ends with a delete of the
uploaded handle, on the success exit as well as on both terminal failure
exits. -/
lemma gen_loop_delete (o : Svc) (jl : String → Option JObj) :
    ∀ (fuel a : Nat), fuel ≠ 0 →
      Ev.deleteCall (o.deleteOk 0) ∈ (Main.gen_loop o jl fuel a).2 := by
  intro fuel
  induction fuel with
  | zero => intro a hf; exact absurd rfl hf
  | succ fuel ih =>
    intro a _
    by_cases hf : fuel = 0
    · subst hf
      cases hg : o.gen a with
      | raise => simp [Main.gen_loop, hg]
      | resp t =>
        cases hj : jl (Main.normalize_response t) with
        | none => simp [Main.gen_loop, hg, hj]
        | some data => simp [Main.gen_loop, hg, hj]
    · cases hg : o.gen a with
      | raise => simp [Main.gen_loop, hg, hf, ih (a + 1) hf]
      | resp t =>
        cases hj : jl (Main.normalize_response t) with
        | none => simp [Main.gen_loop, hg, hj, hf, ih (a + 1) hf]
        | some data => simp [Main.gen_loop, hg, hj]

/-- When every generation attempt yields undecodable text, the loop
returns `None` after exactly `fuel` generation calls. -/
lemma gen_loop_decode_fail (o : Svc) (jl : String → Option JObj)
    (h : ∀ i, ∃ t, o.gen i = .resp t ∧ jl (Main.normalize_response t) = none) :
    ∀ (fuel a : Nat),
      (Main.gen_loop o jl fuel a).1 = none ∧
      (Main.gen_loop o jl fuel a).2.count Ev.genCall = fuel := by
  intro fuel
  induction fuel with
  | zero => intro a; simp [Main.gen_loop]
  | succ fuel ih =>
    intro a
    obtain ⟨t, hg, hj⟩ := h a
    by_cases hf : fuel = 0
    · subst hf; simp [Main.gen_loop, hg, hj, List.count_cons]
    · have h1 := ih (a + 1)
      simp [Main.gen_loop, hg, hj, hf, List.count_cons, h1.1, h1.2]

/-- When the first `k` generation attempts yield undecodable text and
attempt `k` (still within the loop's budget) decodes to `data`, the loop
returns `data`. -/
lemma gen_loop_succ (o : Svc) (jl : String → Option JObj) (data : JObj) :
    ∀ (k fuel a : Nat) (tk : String), k < fuel →
      (∀ i, i < k → ∃ t, o.gen (a + i) = .resp t ∧ jl (Main.normalize_response t) = none) →
      o.gen (a + k) = .resp tk → jl (Main.normalize_response tk) = some data →
      (Main.gen_loop o jl fuel a).1 = some data := by
  intro k
  induction k with
  | zero =>
    intro fuel a tk hk _ hg hj
    cases fuel with
    | zero => omega
    | succ fuel =>
      simp only [Nat.add_zero] at hg
      simp [Main.gen_loop, hg, hj]
  | succ k ih =>
    intro fuel a tk hk hfail hg hj
    cases fuel with
    | zero => omega
    | succ fuel =>
      obtain ⟨t0, hg0, hj0⟩ := hfail 0 (Nat.succ_pos k)
      simp only [Nat.add_zero] at hg0
      have hf : fuel ≠ 0 := by omega
      have hshift : ∀ i, i < k →
          ∃ t, o.gen (a + 1 + i) = .resp t ∧ jl (Main.normalize_response t) = none := by
        intro i hi
        have hh := hfail (i + 1) (by omega)
        have e : a + (i + 1) = a + 1 + i := by omega
        rw [e] at hh
        exact hh
      have hg' : o.gen (a + 1 + k) = .resp tk := by
        have e : a + (k + 1) = a + 1 + k := by omega
        rw [e] at hg
        exact hg
      have hrec := ih fuel (a + 1) tk (by omega) hshift hg' hj
      simp [Main.gen_loop, hg0, hj0, hf, hrec]

/-- The result of src/main.py's extraction does not depend on whether
the swallowed delete call raises. -/
lemma gen_loop_fst_congr (o o' : Svc) (jl : String → Option JObj)
    (hg : o.gen = o'.gen) (_hr : o.rndG = o'.rndG) :
    ∀ (fuel a : Nat), (Main.gen_loop o jl fuel a).1 = (Main.gen_loop o' jl fuel a).1 := by
  intro fuel
  induction fuel with
  | zero => intro a; rfl
  | succ fuel ih =>
    intro a
    cases hga : o'.gen a with
    | raise =>
      have hoa : o.gen a = .raise := by rw [hg, hga]
      by_cases hf : fuel = 0
      · subst hf; simp [Main.gen_loop, hoa, hga]
      · simp [Main.gen_loop, hoa, hga, hf, ih (a + 1)]
    | resp t =>
      have hoa : o.gen a = .resp t := by rw [hg, hga]
      cases hj : jl (Main.normalize_response t) with
      | some data => simp [Main.gen_loop, hoa, hga, hj]
      | none =>
        by_cases hf : fuel = 0
        · subst hf; simp [Main.gen_loop, hoa, hga, hj]
        · simp [Main.gen_loop, hoa, hga, hj, hf, ih (a + 1)]

/-- The upload loop is a function of the upload outcomes and the jitter
stream only. -/
lemma upload_loop_congr (o o' : Svc) (hu : o.uploadOk = o'.uploadOk) (hr : o.rndU = o'.rndU) :
    ∀ (fuel a : Nat), Main.upload_loop o fuel a = Main.upload_loop o' fuel a := by
  intro fuel
  induction fuel with
  | zero => intro a; rfl
  | succ fuel ih =>
    intro a
    cases hb : o'.uploadOk a with
    | true =>
      have h0 : o.uploadOk a = true := by rw [hu, hb]
      simp [Main.upload_loop, h0, hb]
    | false =>
      have h0 : o.uploadOk a = false := by rw [hu, hb]
      simp [Main.upload_loop, h0, hb, ih (a + 1), hr]

/-- src/main.py's extraction never emits a save event. -/
lemma extract_no_save (o : Svc) (jl : String → Option JObj) (mr : Nat) :
    Ev.save ∉ (Main.extract_from_pdf o jl mr).2 := by
  unfold Main.extract_from_pdf
  by_cases h : (Main.upload_loop o (mr + 1) 0).1 = true
  · simp only [h, if_true]
    intro hc
    rcases List.mem_append.mp hc with hc | hc
    · exact upload_loop_no_save o _ _ hc
    · exact gen_loop_no_save o jl _ _ hc
  · simp only [h, if_false]
    exact upload_loop_no_save o _ _

/-! Helper lemmas about the row loops. -/

/-- src/main.py skips a row whose already-processed marker cell is
non-empty, before any matching or extraction. -/
lemma processRow_skip (ext : Pdf → Option JObj × List Ev) (files : List Pdf)
    (ws : Sheet) (row : Row) (r : Nat) (h : row.facultyCell.isSome = true) :
    Main.processRow ext files ws row r = (ws, [], [.alreadyFilled r]) := by
  simp [Main.processRow, h]

/-- src/main.py skips a row with an empty TPN. -/
lemma processRow_emptyTpn (ext : Pdf → Option JObj × List Ev) (files : List Pdf)
    (ws : Sheet) (row : Row) (r : Nat)
    (h0 : row.facultyCell = none) (h1 : normalize_tpn row.tpn = none) :
    Main.processRow ext files ws row r = (ws, [], [.emptyTpn r]) := by
  simp [Main.processRow, h0, h1]

/-- src/main.py skips a row whose TPN resolves to no candidate. -/
lemma processRow_noPdf (ext : Pdf → Option JObj × List Ev) (files : List Pdf)
    (ws : Sheet) (row : Row) (r : Nat) (tpn : String)
    (h0 : row.facultyCell = none) (h1 : normalize_tpn row.tpn = some tpn)
    (h2 : resolve_pdfs Main.extract_tpn_from_filename files tpn = []) :
    Main.processRow ext files ws row r = (ws, [], [.noPdf tpn r]) := by
  simp [Main.processRow, h0, h1, h2]

/-- src/main.py processes a resolvable row against the first candidate;
on a truthy extraction the 17 columns are written and the workbook
saved. -/
lemma processRow_success (ext : Pdf → Option JObj × List Ev) (files : List Pdf)
    (ws : Sheet) (row : Row) (r : Nat) (tpn : String) (pdf : Pdf) (rest : List Pdf)
    (data : JObj)
    (h0 : row.facultyCell = none) (h1 : normalize_tpn row.tpn = some tpn)
    (h2 : resolve_pdfs Main.extract_tpn_from_filename files tpn = pdf :: rest)
    (h3 : (ext pdf).1 = some data) (h4 : data.isEmpty = false) :
    Main.processRow ext files ws row r
      = (Main.update_row data ws r, (ext pdf).2 ++ [.save],
         [.processing r tpn pdf.name, .updated r]) := by
  simp [Main.processRow, h0, h1, h2, h3, h4]

/-- src/main.py on a falsy extraction result (`None`): nothing is
written, the workbook is still saved. -/
lemma processRow_fail (ext : Pdf → Option JObj × List Ev) (files : List Pdf)
    (ws : Sheet) (row : Row) (r : Nat) (tpn : String) (pdf : Pdf) (rest : List Pdf)
    (h0 : row.facultyCell = none) (h1 : normalize_tpn row.tpn = some tpn)
    (h2 : resolve_pdfs Main.extract_tpn_from_filename files tpn = pdf :: rest)
    (h3 : (ext pdf).1 = none) :
    Main.processRow ext files ws row r
      = (ws, (ext pdf).2 ++ [.save],
         [.processing r tpn pdf.name, .extractFailed pdf.name]) := by
  simp [Main.processRow, h0, h1, h2, h3]

/-- src/main.py on an empty decoded object: `if extracted_data:` is
falsy, so nothing is written and the row is logged as failed. -/
lemma processRow_fail_empty (ext : Pdf → Option JObj × List Ev) (files : List Pdf)
    (ws : Sheet) (row : Row) (r : Nat) (tpn : String) (pdf : Pdf) (rest : List Pdf)
    (h0 : row.facultyCell = none) (h1 : normalize_tpn row.tpn = some tpn)
    (h2 : resolve_pdfs Main.extract_tpn_from_filename files tpn = pdf :: rest)
    (h3 : (ext pdf).1 = some []) :
    Main.processRow ext files ws row r
      = (ws, (ext pdf).2 ++ [.save],
         [.processing r tpn pdf.name, .extractFailed pdf.name]) := by
  simp [Main.processRow, h0, h1, h2, h3]

/-- src/main1.py processes a resolvable row against the first candidate;
a truthy extraction writes its 15 columns, with the ambiguity diagnostic
exactly when more than one candidate matched. -/
lemma m1_processRow_success (ext : Pdf → Option JObj × List Ev) (files : List Pdf)
    (ws : Sheet) (row : Row) (r : Nat) (tpn : String) (pdf : Pdf) (rest : List Pdf)
    (data : JObj)
    (h1 : normalize_tpn row.tpn = some tpn)
    (h2 : resolve_pdfs Main1.extract_tpn_from_filename files tpn = pdf :: rest)
    (h3 : (ext pdf).1 = some data) (h4 : data.isEmpty = false) :
    Main1.processRow ext files ws row r
      = (Main1.update_row data ws r, (ext pdf).2,
         (if rest.isEmpty then [] else [.multiplePdfs tpn pdf.name])
           ++ [.processing r tpn pdf.name, .updated r]) := by
  simp [Main1.processRow, h1, h2, h3, h4]

/-- src/main1.py on a falsy extraction result. -/
lemma m1_processRow_fail (ext : Pdf → Option JObj × List Ev) (files : List Pdf)
    (ws : Sheet) (row : Row) (r : Nat) (tpn : String) (pdf : Pdf) (rest : List Pdf)
    (h1 : normalize_tpn row.tpn = some tpn)
    (h2 : resolve_pdfs Main1.extract_tpn_from_filename files tpn = pdf :: rest)
    (h3 : (ext pdf).1 = none) :
    Main1.processRow ext files ws row r
      = (ws, (ext pdf).2,
         (if rest.isEmpty then [] else [.multiplePdfs tpn pdf.name])
           ++ [.processing r tpn pdf.name, .extractFailed pdf.name]) := by
  simp [Main1.processRow, h1, h2, h3]

/-- src/main1.py's extraction never emits a save event. -/
lemma m1_extract_no_save (o : Svc) (jl : String → Option JObj) :
    ∀ (fuel a : Nat), Ev.save ∉ (Main1.extract_from_pdf o jl fuel a).2 := by
  intro fuel
  induction fuel with
  | zero => intro a; simp [Main1.extract_from_pdf]
  | succ fuel ih =>
    intro a
    cases hb : o.uploadOk a with
    | false => simp [Main1.extract_from_pdf, hb]
    | true =>
      cases hg : o.gen a with
      | raise => simp [Main1.extract_from_pdf, hb, hg]
      | resp t =>
        cases hj : jl (Main1.normalize_response t) with
        | none => simp [Main1.extract_from_pdf, hb, hg, hj]
        | some data =>
          by_cases hc :
              (!(Main1.required_fields.filter (fun k => (data.lookup k).isNone)).isEmpty
                && fuel != 0) = true
          · simp [Main1.extract_from_pdf, hb, hg, hj, hc, ih (a + 1)]
          · by_cases hd : o.deleteOk a = true
            · simp [Main1.extract_from_pdf, hb, hg, hj, hc, hd]
            · simp [Main1.extract_from_pdf, hb, hg, hj, hc, hd]

/-- One src/main1.py row iteration never emits a save event, provided
the extractor it calls does not. -/
lemma m1_processRow_no_save (ext : Pdf → Option JObj × List Ev) (files : List Pdf)
    (ws : Sheet) (row : Row) (r : Nat) (hns : ∀ pf, Ev.save ∉ (ext pf).2) :
    Ev.save ∉ (Main1.processRow ext files ws row r).2.1 := by
  cases hn : normalize_tpn row.tpn with
  | none => simp [Main1.processRow, hn]
  | some tpn =>
    cases hr : resolve_pdfs Main1.extract_tpn_from_filename files tpn with
    | nil => simp [Main1.processRow, hn, hr]
    | cons pdf rest =>
      cases hres : (ext pdf).1 with
      | none => simpa [Main1.processRow, hn, hr, hres] using hns pdf
      | some data =>
        by_cases he : data.isEmpty = true
        · simpa [Main1.processRow, hn, hr, hres, he] using hns pdf
        · simpa [Main1.processRow, hn, hr, hres, he] using hns pdf

/-- The whole src/main1.py row loop never emits a save event, provided
the extractor does not. -/
lemma m1_row_loop_no_save (ext : Pdf → Option JObj × List Ev) (files : List Pdf)
    (hns : ∀ pf, Ev.save ∉ (ext pf).2) :
    ∀ (rows : List Row) (ws : Sheet) (r : Nat),
      Ev.save ∉ (Main1.row_loop ext files ws r rows).2.1 := by
  intro rows
  induction rows with
  | nil => intro ws r; simp [Main1.row_loop]
  | cons row rest ih =>
    intro ws r
    simp only [Main1.row_loop]
    intro hc
    rcases List.mem_append.mp hc with hc | hc
    · exact m1_processRow_no_save ext files ws row r hns hc
    · exact ih _ _ hc

/-! Claim theorems. -/

/-- C1, counterexample: src/main1.py has no already-processed check.
On a row whose designated marker cell is non-empty (`rowFilled`), its
row loop still calls the upload service and overwrites cell L, so the
claimed skip does not hold of that file. -/
theorem C1_counterexample :
    rowFilled.facultyCell = some "Yes" ∧
    Ev.uploadCall ∈ (Main1.processRow extM1OK exFiles ws0 rowFilled 6).2.1 ∧
    (Main1.processRow extM1OK exFiles ws0 rowFilled 6).1 "L" 6 = some "Yes" ∧
    ws0 "L" 6 = none := by decide

/-- C1 (amended): in src/main.py, a record whose designated
already-processed cell is non-empty is skipped before any matching or
extraction, with no service events and an unchanged sheet; and a row
completed by a successful run has a non-empty column-V cell, so a
second run that re-reads the sheet skips it the same way. (src/main1.py
has no such check and reprocesses every row.) -/
theorem C1_thm (ext : Pdf → Option JObj × List Ev) (files : List Pdf) (ws : Sheet)
    (row : Row) (r : Nat) :
    (row.facultyCell.isSome = true →
      Main.processRow ext files ws row r = (ws, [], [LogM.alreadyFilled r])) ∧
    (∀ (tpn : String) (pdf : Pdf) (rest : List Pdf) (data : JObj),
      row.facultyCell = none → normalize_tpn row.tpn = some tpn →
      resolve_pdfs Main.extract_tpn_from_filename files tpn = pdf :: rest →
      (ext pdf).1 = some data → data.isEmpty = false →
      ((Main.processRow ext files ws row r).1 "V" r).isSome = true ∧
      ∀ (ext' : Pdf → Option JObj × List Ev) (row' : Row),
        row'.facultyCell = (Main.processRow ext files ws row r).1 "V" r →
        Main.processRow ext' files (Main.processRow ext files ws row r).1 row' r
          = ((Main.processRow ext files ws row r).1, [], [LogM.alreadyFilled r])) := by
  constructor
  · intro h
    exact processRow_skip ext files ws row r h
  · intro tpn pdf rest data h0 h1 h2 h3 h4
    have hstep := processRow_success ext files ws row r tpn pdf rest data h0 h1 h2 h3 h4
    have hcell : (Main.processRow ext files ws row r).1 "V" r
        = some ((data.lookup "col_v").getD "-") := by
      rw [hstep]
      exact fold_set_mem data r schema_cols ws ("V", "col_v") (by decide) (by decide)
    refine ⟨by rw [hcell]; rfl, ?_⟩
    intro ext' row' hrow'
    have hsome : row'.facultyCell.isSome = true := by
      rw [hrow', hcell]; rfl
    exact processRow_skip ext' files _ row' r hsome

/-- C1, witness: a filled row is skipped unchanged, and the row
completed by a first successful run is skipped by the second run. -/
theorem C1_witness :
    Main.processRow extMainOK exFiles ws0 rowFilled 6 = (ws0, [], [LogM.alreadyFilled 6]) ∧
    Main.processRow extMainOK exFiles wsAfter rowAfter 6
      = (wsAfter, [], [LogM.alreadyFilled 6]) := by
  refine ⟨(C1_thm extMainOK exFiles ws0 rowFilled 6).1 rfl, ?_⟩
  exact ((C1_thm extMainOK exFiles ws0 row500 6).2 "500" pdfA [] exData rfl
    (by decide) (by decide) (by decide) (by decide)).2 extMainOK rowAfter rfl

/-- C2, counterexample: src/main1.py batches the save: a two-record run
makes all four service calls of both records and then saves exactly
once, at the very end, so no save separates record 1 from record 2. -/
theorem C2_counterexample :
    (Main1.update_excel_with_proposals extM1OK exFilesAB ws0 6 [row500, row501]).2.1
      = [Ev.uploadCall, Ev.genCall, Ev.deleteCall true,
         Ev.uploadCall, Ev.genCall, Ev.deleteCall true, Ev.save] := by decide

/-- C2 (amended): in src/main.py the run is the per-record concatenation
of row segments, and each row segment is either empty with the sheet
unchanged (a skipped row) or ends in exactly one save event — so the
state is persisted after every processed record before the next one
starts. In src/main1.py the whole run carries exactly one save, appended
after the loop. -/
theorem C2_thm (o : Svc) (jl : String → Option JObj) (mr : Nat) (files : List Pdf)
    (ws : Sheet) (row : Row) (r : Nat) :
    (∀ rest, Main.update_excel_with_proposals (fun _ => Main.extract_from_pdf o jl mr)
          files ws r (row :: rest)
        = (let step := Main.processRow (fun _ => Main.extract_from_pdf o jl mr) files ws row r
           let k := Main.update_excel_with_proposals (fun _ => Main.extract_from_pdf o jl mr)
             files step.1 (r + 1) rest
           (k.1, step.2.1 ++ k.2.1, step.2.2 ++ k.2.2))) ∧
    (((Main.processRow (fun _ => Main.extract_from_pdf o jl mr) files ws row r).2.1 = [] ∧
      (Main.processRow (fun _ => Main.extract_from_pdf o jl mr) files ws row r).1 = ws) ∨
     (∃ pre, (Main.processRow (fun _ => Main.extract_from_pdf o jl mr) files ws row r).2.1
         = pre ++ [Ev.save] ∧ Ev.save ∉ pre)) ∧
    (∀ (rows : List Row) (fuel a : Nat),
      (Main1.update_excel_with_proposals (fun _ => Main1.extract_from_pdf o jl fuel a)
          files ws r rows).2.1
        = (Main1.row_loop (fun _ => Main1.extract_from_pdf o jl fuel a)
            files ws r rows).2.1 ++ [Ev.save] ∧
      Ev.save ∉ (Main1.row_loop (fun _ => Main1.extract_from_pdf o jl fuel a)
          files ws r rows).2.1) := by
  refine ⟨fun rest => rfl, ?_, ?_⟩
  · by_cases hs : row.facultyCell.isSome = true
    · left
      rw [processRow_skip _ files ws row r hs]
      exact ⟨rfl, rfl⟩
    · have hs0 : row.facultyCell = none := by
        cases hfc : row.facultyCell with
        | none => rfl
        | some v => rw [hfc] at hs; exact absurd rfl hs
      cases h1 : normalize_tpn row.tpn with
      | none =>
        left
        rw [processRow_emptyTpn _ files ws row r hs0 h1]
        exact ⟨rfl, rfl⟩
      | some tpn =>
        cases h2 : resolve_pdfs Main.extract_tpn_from_filename files tpn with
        | nil =>
          left
          rw [processRow_noPdf _ files ws row r tpn hs0 h1 h2]
          exact ⟨rfl, rfl⟩
        | cons pdf rest =>
          right
          refine ⟨(Main.extract_from_pdf o jl mr).2, ?_, extract_no_save o jl mr⟩
          cases h3 : (Main.extract_from_pdf o jl mr).1 with
          | none =>
            rw [processRow_fail _ files ws row r tpn pdf rest hs0 h1 h2 h3]
          | some data =>
            by_cases h4 : data.isEmpty = true
            · have hdn : data = [] := by
                cases data with
                | nil => rfl
                | cons x xs => simp at h4
              subst hdn
              rw [processRow_fail_empty _ files ws row r tpn pdf rest hs0 h1 h2 h3]
            · have h4' : data.isEmpty = false := by
                cases hde : data.isEmpty with
                | false => rfl
                | true => exact absurd hde h4
              rw [processRow_success _ files ws row r tpn pdf rest data hs0 h1 h2 h3 h4']
  · intro rows fuel a
    exact ⟨rfl, m1_row_loop_no_save _ files (fun pf => m1_extract_no_save o jl fuel a) rows ws r⟩

/-- C3, counterexample: src/main1.py writes only columns L..Z. On a
successful extraction whose result carries `col_aa`, cells AA and AB of
the row stay empty while L is written, so not all 17 schema columns are
populated by that file. -/
theorem C3_counterexample :
    (extM1OK pdfA).1 = some exData ∧
    exData.lookup "col_aa" = some "12(ok)" ∧
    (Main1.processRow extM1OK exFiles ws0 row500 6).1 "L" 6 = some "Yes" ∧
    (Main1.processRow extM1OK exFiles ws0 row500 6).1 "AA" 6 = none ∧
    (Main1.processRow extM1OK exFiles ws0 row500 6).1 "AB" 6 = none := by decide

/-- C3 (amended): in src/main.py a successful extraction writes all 17
schema columns L..AB of the row, each as the result's value for its key
or the sentinel `-` when the key is absent, and the processed row's
sheet is exactly that writeback; src/main1.py writes only L..Z and
leaves AA and AB untouched. -/
theorem C3_thm (data : JObj) (ws : Sheet) (r : Nat) :
    (∀ ck ∈ schema_cols,
      Main.update_row data ws r ck.1 r = some ((data.lookup ck.2).getD "-")) ∧
    (Main1.update_row data ws r "AA" r = ws "AA" r ∧
     Main1.update_row data ws r "AB" r = ws "AB" r) ∧
    (∀ (ext : Pdf → Option JObj × List Ev) (files : List Pdf) (row : Row)
        (tpn : String) (pdf : Pdf) (rest : List Pdf),
      row.facultyCell = none → normalize_tpn row.tpn = some tpn →
      resolve_pdfs Main.extract_tpn_from_filename files tpn = pdf :: rest →
      (ext pdf).1 = some data → data.isEmpty = false →
      (Main.processRow ext files ws row r).1 = Main.update_row data ws r) := by
  refine ⟨?_, ⟨?_, ?_⟩, ?_⟩
  · intro ck hck
    exact fold_set_mem data r schema_cols ws ck (by decide) hck
  · exact fold_set_notin data r (schema_cols.take 15) ws "AA" r (by decide)
  · exact fold_set_notin data r (schema_cols.take 15) ws "AB" r (by decide)
  · intro ext files row tpn pdf rest h0 h1 h2 h3 h4
    rw [processRow_success ext files ws row r tpn pdf rest data h0 h1 h2 h3 h4]

/-- C3, witness: on the concrete result, main.py fills AA with the
result's `col_aa` value while main1.py leaves AA empty. -/
theorem C3_witness :
    Main.update_row exData ws0 6 "AA" 6 = some "12(ok)" ∧
    Main1.update_row exData ws0 6 "AA" 6 = none := by
  have h := C3_thm exData ws0 6
  exact ⟨(h.1 ("AA", "col_aa") (by decide)).trans (by decide), h.2.1.1.trans rfl⟩

/-- src/main1.py on an empty decoded object: falsy, logged as failed. -/
lemma m1_processRow_fail_empty (ext : Pdf → Option JObj × List Ev) (files : List Pdf)
    (ws : Sheet) (row : Row) (r : Nat) (tpn : String) (pdf : Pdf) (rest : List Pdf)
    (h1 : normalize_tpn row.tpn = some tpn)
    (h2 : resolve_pdfs Main1.extract_tpn_from_filename files tpn = pdf :: rest)
    (h3 : (ext pdf).1 = some []) :
    Main1.processRow ext files ws row r
      = (ws, (ext pdf).2,
         (if rest.isEmpty then [] else [.multiplePdfs tpn pdf.name])
           ++ [.processing r tpn pdf.name, .extractFailed pdf.name]) := by
  simp [Main1.processRow, h1, h2, h3]

/-- C4, counterexample: in src/main1.py an upload error is not retried
at all: with a service whose upload raises on the first two attempts and
succeeds from the third, `extract_from_pdf` returns `None` after a
single upload call, with no backoff sleep. -/
theorem C4_counterexample :
    svcUp3.uploadOk 0 = false ∧ svcUp3.uploadOk 1 = false ∧ svcUp3.uploadOk 2 = true ∧
    Main1.extract_from_pdf svcUp3 jlGood 3 0 = (none, [Ev.uploadCall]) := by decide

/-- C4 (amended): in src/main.py the upload phase retries any transport
error with backoff `2 ^ attempt + random[0,1)` seconds up to the attempt
cap: if the first two uploads raise and the third succeeds (cap 2, so
three attempts), extraction still returns the decoded result, with
exactly the two claimed backoff sleeps in the trace; if every upload
raises, the extraction is a terminal `None` after `max_retries + 1`
upload calls and no generation call, the row's cells are unmodified, and
the loop continues with the remaining rows. (src/main1.py returns `None`
on the first upload error.) -/
theorem C4_thm :
    (∀ (o : Svc) (jl : String → Option JObj) (t : String) (data : JObj),
      o.uploadOk 0 = false → o.uploadOk 1 = false → o.uploadOk 2 = true →
      o.gen 0 = .resp t → jl (Main.normalize_response t) = some data →
      Main.extract_from_pdf o jl 2
        = (some data,
           [Ev.uploadCall, Ev.sleep (2 ^ 1 + o.rndU 0), Ev.uploadCall,
            Ev.sleep (2 ^ 2 + o.rndU 1), Ev.uploadCall, Ev.genCall,
            Ev.deleteCall (o.deleteOk 0)])) ∧
    (∀ (o : Svc) (jl : String → Option JObj) (mr : Nat),
      (∀ i, o.uploadOk i = false) →
      (Main.extract_from_pdf o jl mr).1 = none ∧
      (Main.extract_from_pdf o jl mr).2.count Ev.uploadCall = mr + 1 ∧
      Ev.genCall ∉ (Main.extract_from_pdf o jl mr).2) ∧
    (∀ (o : Svc) (jl : String → Option JObj) (mr : Nat) (files : List Pdf) (ws : Sheet)
        (row : Row) (r : Nat) (tpn : String) (pdf : Pdf) (rest : List Pdf),
      (∀ i, o.uploadOk i = false) →
      row.facultyCell = none → normalize_tpn row.tpn = some tpn →
      resolve_pdfs Main.extract_tpn_from_filename files tpn = pdf :: rest →
      (Main.processRow (fun _ => Main.extract_from_pdf o jl mr) files ws row r).1 = ws ∧
      ∀ rows, (Main.update_excel_with_proposals (fun _ => Main.extract_from_pdf o jl mr)
            files ws r (row :: rows)).1
          = (Main.update_excel_with_proposals (fun _ => Main.extract_from_pdf o jl mr)
              files ws (r + 1) rows).1) := by
  refine ⟨?_, ?_, ?_⟩
  · intro o jl t data h0 h1 h2 h3 h4
    have hup : Main.upload_loop o 3 0
        = (true, [Ev.uploadCall, Ev.sleep (2 ^ 1 + o.rndU 0), Ev.uploadCall,
                  Ev.sleep (2 ^ 2 + o.rndU 1), Ev.uploadCall]) := by
      simp [Main.upload_loop, h0, h1, h2]
    have hgen : Main.gen_loop o jl 3 0
        = (some data, [Ev.genCall, Ev.deleteCall (o.deleteOk 0)]) := by
      simp [Main.gen_loop, h3, h4]
    simp [Main.extract_from_pdf, hup, hgen]
  · intro o jl mr hall
    have h := upload_loop_fail o hall (mr + 1) 0
    refine ⟨?_, ?_, ?_⟩
    · simp [Main.extract_from_pdf, h.1]
    · simp [Main.extract_from_pdf, h.1, h.2.1]
    · simp [Main.extract_from_pdf, h.1, h.2.2]
  · intro o jl mr files ws row r tpn pdf rest hall hrow h1 h2
    have hres : (Main.extract_from_pdf o jl mr).1 = none := by
      simp [Main.extract_from_pdf, (upload_loop_fail o hall (mr + 1) 0).1]
    have hstep := processRow_fail (fun _ => Main.extract_from_pdf o jl mr)
      files ws row r tpn pdf rest hrow h1 h2 hres
    constructor
    · rw [hstep]
    · intro rows
      have hsh : (Main.update_excel_with_proposals (fun _ => Main.extract_from_pdf o jl mr)
            files ws r (row :: rows)).1
          = (Main.update_excel_with_proposals (fun _ => Main.extract_from_pdf o jl mr)
              files ((Main.processRow (fun _ => Main.extract_from_pdf o jl mr)
                files ws row r).1) (r + 1) rows).1 := rfl
      rw [hsh, hstep]

/-- C4, witness: upload fails twice then succeeds on the third attempt
under the concrete oracle and extraction still yields the decoded data
with the two backoff sleeps; a service whose upload always raises yields
a terminal `None`. -/
theorem C4_witness :
    Main.extract_from_pdf svcUp3 jlGood 2
      = (some exData,
         [Ev.uploadCall, Ev.sleep (2 ^ 1 + 0), Ev.uploadCall, Ev.sleep (2 ^ 2 + 0),
          Ev.uploadCall, Ev.genCall, Ev.deleteCall true]) ∧
    (Main.extract_from_pdf svcFail jlGood 2).1 = none :=
  ⟨C4_thm.1 svcUp3 jlGood "T" exData (by decide) (by decide) (by decide) rfl (by decide),
   (C4_thm.2.1 svcFail jlGood 2 (fun _ => rfl)).1⟩

/-- C5, counterexample: in src/main1.py a JSON decode failure is not
retried: the `except json.JSONDecodeError` clause returns `None` after a
single generation attempt. -/
theorem C5_counterexample :
    Main1.extract_from_pdf svcOK jlNone 3 0 = (none, [Ev.uploadCall, Ev.genCall]) := by decide

/-- C5 (amended): in src/main.py a response whose normalized text fails
to decode is retried: with undecodable responses on every attempt the
generation phase runs exactly `max_retries + 1` times and then returns a
terminal `None`, in which case the row's cells are unmodified; and if
some attempt within the cap decodes, extraction returns its data.
(src/main1.py returns `None` on the first decode failure.) -/
theorem C5_thm :
    (∀ (o : Svc) (jl : String → Option JObj) (mr : Nat),
      o.uploadOk 0 = true →
      (∀ i, ∃ t, o.gen i = .resp t ∧ jl (Main.normalize_response t) = none) →
      (Main.extract_from_pdf o jl mr).1 = none ∧
      (Main.extract_from_pdf o jl mr).2.count Ev.genCall = mr + 1) ∧
    (∀ (o : Svc) (jl : String → Option JObj) (mr k : Nat) (tk : String) (data : JObj),
      o.uploadOk 0 = true → k ≤ mr →
      (∀ i, i < k → ∃ t, o.gen i = .resp t ∧ jl (Main.normalize_response t) = none) →
      o.gen k = .resp tk → jl (Main.normalize_response tk) = some data →
      (Main.extract_from_pdf o jl mr).1 = some data) ∧
    (∀ (o : Svc) (jl : String → Option JObj) (mr : Nat) (files : List Pdf) (ws : Sheet)
        (row : Row) (r : Nat) (tpn : String) (pdf : Pdf) (rest : List Pdf),
      o.uploadOk 0 = true →
      (∀ i, ∃ t, o.gen i = .resp t ∧ jl (Main.normalize_response t) = none) →
      row.facultyCell = none → normalize_tpn row.tpn = some tpn →
      resolve_pdfs Main.extract_tpn_from_filename files tpn = pdf :: rest →
      (Main.processRow (fun _ => Main.extract_from_pdf o jl mr) files ws row r).1 = ws) := by
  refine ⟨?_, ?_, ?_⟩
  · intro o jl mr hu hfail
    have hup : Main.upload_loop o (mr + 1) 0 = (true, [Ev.uploadCall]) := by
      simp [Main.upload_loop, hu]
    have hg := gen_loop_decode_fail o jl hfail (mr + 1) 0
    constructor
    · simp [Main.extract_from_pdf, hup, hg.1]
    · simp [Main.extract_from_pdf, hup, List.count_append, hg.2, List.count_cons]
  · intro o jl mr k tk data hu hk hfail hgk hjk
    have hup : Main.upload_loop o (mr + 1) 0 = (true, [Ev.uploadCall]) := by
      simp [Main.upload_loop, hu]
    have hg := gen_loop_succ o jl data k (mr + 1) 0 tk (by omega)
      (fun i hi => by simpa using hfail i hi) (by simpa using hgk) hjk
    simp [Main.extract_from_pdf, hup, hg]
  · intro o jl mr files ws row r tpn pdf rest hu hfail h0 h1 h2
    have hup : Main.upload_loop o (mr + 1) 0 = (true, [Ev.uploadCall]) := by
      simp [Main.upload_loop, hu]
    have hg := gen_loop_decode_fail o jl hfail (mr + 1) 0
    have hres : (Main.extract_from_pdf o jl mr).1 = none := by
      simp [Main.extract_from_pdf, hup, hg.1]
    rw [processRow_fail (fun _ => Main.extract_from_pdf o jl mr)
      files ws row r tpn pdf rest h0 h1 h2 hres]

/-- C5, witness: three failed decodes exhaust the cap and yield `None`
after exactly three generation calls; a decode failure on attempt 0
followed by a decodable response on attempt 1 yields the data. -/
theorem C5_witness :
    (Main.extract_from_pdf svcOK jlNone 2).1 = none ∧
    (Main.extract_from_pdf svcOK jlNone 2).2.count Ev.genCall = 3 ∧
    (Main.extract_from_pdf svcSecond jlSecond 2).1 = some exData := by
  refine ⟨?_, ?_, ?_⟩
  · exact (C5_thm.1 svcOK jlNone 2 rfl (fun i => ⟨"T", rfl, rfl⟩)).1
  · exact (C5_thm.1 svcOK jlNone 2 rfl (fun i => ⟨"T", rfl, rfl⟩)).2
  · refine C5_thm.2.1 svcSecond jlSecond 2 1 "U" exData rfl (by omega) ?_ (by decide) (by decide)
    intro i hi
    have hz : i = 0 := by omega
    subst hz
    exact ⟨"T", rfl, by decide⟩

/-- C6: the TPN is normalized to a canonical string before matching: an
integral float renders as its integer digits without a decimal point,
and a string value is trimmed; when the trimmed string equals those
digits the two cells resolve to the same candidate list. -/
theorem C6_thm (q : ℚ) (srepr s : String) (files : List Pdf)
    (hint : q.den = 1) (hs : pyStrip s = toString q.num) :
    normalize_tpn (.float q srepr) = some (toString q.num) ∧
    normalize_tpn (.str s) = normalize_tpn (.float q srepr) ∧
    resolve_pdfs Main.extract_tpn_from_filename files
        ((normalize_tpn (.float q srepr)).getD "")
      = resolve_pdfs Main.extract_tpn_from_filename files
        ((normalize_tpn (.str s)).getD "") := by
  have h1 : normalize_tpn (.float q srepr) = some (toString q.num) := by
    simp [normalize_tpn, hint]
  have h2 : normalize_tpn (.str s) = some (toString q.num) := by
    simp [normalize_tpn, hs]
  exact ⟨h1, h2.trans h1.symm, by rw [h1, h2]⟩

/-- C6, witness: the numeric cell `135236.0` and the string cell
`"135236"` normalize identically and resolve to the same candidate. -/
theorem C6_witness :
    normalize_tpn (.float (135236 : ℚ) "135236.0") = some "135236" ∧
    normalize_tpn (.str "135236") = normalize_tpn (.float (135236 : ℚ) "135236.0") ∧
    resolve_pdfs Main.extract_tpn_from_filename exFiles135
        ((normalize_tpn (.float (135236 : ℚ) "135236.0")).getD "")
      = resolve_pdfs Main.extract_tpn_from_filename exFiles135
        ((normalize_tpn (.str "135236")).getD "") := by
  have h := C6_thm (135236 : ℚ) "135236.0" "135236" exFiles135 (by decide) (by decide)
  exact ⟨h.1.trans (by decide), h.2.1, h.2.2⟩

/-- C7: resolution tries the exact dictionary lookup first (the
dictionary holding, per key, exactly the discovered files with that key,
in discovery order); only when it is empty does it fall back to the
substring scan over all discovered candidates; and when both are empty
the row is skipped with a no-PDF diagnostic and the loop continues with
the remaining rows. -/
theorem C7_thm :
    (∀ (keyOf : String → Option String) (files : List Pdf) (k : String),
      mapGet (buildMap keyOf files) k = files.filter (fun pf => mapKey keyOf pf == k)) ∧
    (∀ (files : List Pdf) (tpn : String),
      mapGet (buildMap Main.extract_tpn_from_filename files) tpn ≠ [] →
      resolve_pdfs Main.extract_tpn_from_filename files tpn
        = mapGet (buildMap Main.extract_tpn_from_filename files) tpn) ∧
    (∀ (files : List Pdf) (tpn : String),
      mapGet (buildMap Main.extract_tpn_from_filename files) tpn = [] →
      resolve_pdfs Main.extract_tpn_from_filename files tpn
        = files.filter (fun pf => subOf tpn.data pf.name.data)) ∧
    (∀ (ext : Pdf → Option JObj × List Ev) (files : List Pdf) (ws : Sheet) (row : Row)
        (r : Nat) (tpn : String),
      row.facultyCell = none → normalize_tpn row.tpn = some tpn →
      resolve_pdfs Main.extract_tpn_from_filename files tpn = [] →
      Main.processRow ext files ws row r = (ws, [], [LogM.noPdf tpn r]) ∧
      ∀ rows, Main.update_excel_with_proposals ext files ws r (row :: rows)
        = ((Main.update_excel_with_proposals ext files ws (r + 1) rows).1,
           (Main.update_excel_with_proposals ext files ws (r + 1) rows).2.1,
           LogM.noPdf tpn r :: (Main.update_excel_with_proposals ext files ws (r + 1) rows).2.2)) := by
  refine ⟨buildMap_get, fun files tpn h => resolve_exact _ files tpn h,
    fun files tpn h => resolve_fallback _ files tpn h, ?_⟩
  intro ext files ws row r tpn h0 h1 h2
  have hstep := processRow_noPdf ext files ws row r tpn h0 h1 h2
  refine ⟨hstep, fun rows => ?_⟩
  simp [Main.update_excel_with_proposals, hstep]

/-- C7, witness: TPN 500 resolves by the exact lookup, and TPN 999
(matching nothing) skips its row with the diagnostic. -/
theorem C7_witness :
    resolve_pdfs Main.extract_tpn_from_filename exFiles2 "500"
      = mapGet (buildMap Main.extract_tpn_from_filename exFiles2) "500" ∧
    Main.processRow extMainOK exFiles ws0 row999 6 = (ws0, [], [LogM.noPdf "999" 6]) := by
  refine ⟨C7_thm.2.1 exFiles2 "500" (by decide), ?_⟩
  exact (C7_thm.2.2.2 extMainOK exFiles ws0 row999 6 "999" rfl (by decide) (by decide)).1

/-- C8, counterexample: src/main.py emits no diagnostic for an ambiguous
match. With two candidates both matching TPN 500, the processed row's
log holds only the processing and updated lines — no ambiguity entry —
although resolution returned two candidates. -/
theorem C8_counterexample :
    (resolve_pdfs Main.extract_tpn_from_filename exFiles2 "500").length = 2 ∧
    (Main.processRow extMainOK exFiles2 ws0 row500 6).2.2
      = [LogM.processing 6 "500" "ProposalID_500_finalproposal.pdf", LogM.updated 6] := by
  decide

/-- C8 (amended): in both files the selection among multiple matching
candidates is deterministic — extraction is invoked on the first
candidate in discovery order and the processing line names it — but the
ambiguity diagnostic exists only in src/main1.py; src/main.py's row loop
never emits one. -/
theorem C8_thm :
    (∀ (ext : Pdf → Option JObj × List Ev) (files : List Pdf) (ws : Sheet) (row : Row)
        (r : Nat) (tpn : String) (pdf : Pdf) (rest : List Pdf),
      row.facultyCell = none → normalize_tpn row.tpn = some tpn →
      resolve_pdfs Main.extract_tpn_from_filename files tpn = pdf :: rest →
      (Main.processRow ext files ws row r).2.1 = (ext pdf).2 ++ [Ev.save] ∧
      LogM.processing r tpn pdf.name ∈ (Main.processRow ext files ws row r).2.2 ∧
      ∀ t n, LogM.multiplePdfs t n ∉ (Main.processRow ext files ws row r).2.2) ∧
    (∀ (ext : Pdf → Option JObj × List Ev) (files : List Pdf) (ws : Sheet) (row : Row)
        (r : Nat) (tpn : String) (pdf : Pdf) (rest : List Pdf),
      normalize_tpn row.tpn = some tpn →
      resolve_pdfs Main1.extract_tpn_from_filename files tpn = pdf :: rest →
      LogM.processing r tpn pdf.name ∈ (Main1.processRow ext files ws row r).2.2 ∧
      (rest ≠ [] → LogM.multiplePdfs tpn pdf.name ∈ (Main1.processRow ext files ws row r).2.2)) := by
  constructor
  · intro ext files ws row r tpn pdf rest h0 h1 h2
    cases h3 : (ext pdf).1 with
    | none =>
      rw [processRow_fail ext files ws row r tpn pdf rest h0 h1 h2 h3]
      exact ⟨rfl, by simp, by simp⟩
    | some data =>
      by_cases h4 : data.isEmpty = true
      · have hdn : data = [] := by
          cases data with
          | nil => rfl
          | cons x xs => simp at h4
        subst hdn
        rw [processRow_fail_empty ext files ws row r tpn pdf rest h0 h1 h2 h3]
        exact ⟨rfl, by simp, by simp⟩
      · have h4' : data.isEmpty = false := by
          cases hde : data.isEmpty with
          | false => rfl
          | true => exact absurd hde h4
        rw [processRow_success ext files ws row r tpn pdf rest data h0 h1 h2 h3 h4']
        exact ⟨rfl, by simp, by simp⟩
  · intro ext files ws row r tpn pdf rest h1 h2
    have hone : rest ≠ [] → (if rest.isEmpty then ([] : List LogM)
        else [LogM.multiplePdfs tpn pdf.name]) = [LogM.multiplePdfs tpn pdf.name] := by
      intro hrest
      have : rest.isEmpty = false := by
        cases rest with
        | nil => exact absurd rfl hrest
        | cons a l => rfl
      simp [this]
    cases h3 : (ext pdf).1 with
    | none =>
      rw [m1_processRow_fail ext files ws row r tpn pdf rest h1 h2 h3]
      exact ⟨by simp, fun hrest => by rw [hone hrest]; simp⟩
    | some data =>
      by_cases h4 : data.isEmpty = true
      · have hdn : data = [] := by
          cases data with
          | nil => rfl
          | cons x xs => simp at h4
        subst hdn
        rw [m1_processRow_fail_empty ext files ws row r tpn pdf rest h1 h2 h3]
        exact ⟨by simp, fun hrest => by rw [hone hrest]; simp⟩
      · have h4' : data.isEmpty = false := by
          cases hde : data.isEmpty with
          | false => rfl
          | true => exact absurd hde h4
        rw [m1_processRow_success ext files ws row r tpn pdf rest data h1 h2 h3 h4']
        exact ⟨by simp, fun hrest => by rw [hone hrest]; simp⟩

/-- C8, witness: on the ambiguous TPN 500 both files process the first
candidate in discovery order, and main1.py logs the ambiguity. -/
theorem C8_witness :
    (Main.processRow extMainOK exFiles2 ws0 row500 6).2.1 = (extMainOK pdfA).2 ++ [Ev.save] ∧
    LogM.multiplePdfs "500" "ProposalID_500_finalproposal.pdf"
      ∈ (Main1.processRow extM1OK exFiles2 ws0 row500 6).2.2 := by
  constructor
  · exact (C8_thm.1 extMainOK exFiles2 ws0 row500 6 "500" pdfA [pdfB] rfl (by decide)
      (by decide)).1
  · exact (C8_thm.2 extM1OK exFiles2 ws0 row500 6 "500" pdfA [pdfB] (by decide)
      (by decide)).2 (by decide)

/-- C9, counterexample: in src/main1.py the release is not swallowed and
not performed on failure: with a raising delete, a successfully decoded
extraction is turned into `None` (the release error masks the result),
and on a decode failure no delete call happens at all. -/
theorem C9_counterexample :
    jlGood (Main1.normalize_response "T") = some exData ∧
    Main1.extract_from_pdf svcDelFail jlGood 3 0
      = (none, [Ev.uploadCall, Ev.genCall, Ev.deleteCall false]) ∧
    Main1.extract_from_pdf svcOK jlNone 3 0 = (none, [Ev.uploadCall, Ev.genCall]) := by decide

/-- C9 (amended): in src/main.py every call that reaches the generation
phase releases the uploaded handle (a delete call is in the trace on the
success exit and on both terminal-failure exits), and the returned
result does not depend on whether the release raises. (In src/main1.py
the release happens only on the accepted-result path and unprotected,
so a raised release changes the result.) -/
theorem C9_thm :
    (∀ (o : Svc) (jl : String → Option JObj) (mr : Nat),
      (Main.upload_loop o (mr + 1) 0).1 = true →
      Ev.deleteCall (o.deleteOk 0) ∈ (Main.extract_from_pdf o jl mr).2) ∧
    (∀ (o o' : Svc) (jl : String → Option JObj) (mr : Nat),
      o.uploadOk = o'.uploadOk → o.gen = o'.gen → o.rndU = o'.rndU → o.rndG = o'.rndG →
      (Main.extract_from_pdf o jl mr).1 = (Main.extract_from_pdf o' jl mr).1) := by
  constructor
  · intro o jl mr hup
    have hg := gen_loop_delete o jl (mr + 1) 0 (by omega)
    simp only [Main.extract_from_pdf, hup, if_true]
    exact List.mem_append.mpr (Or.inr hg)
  · intro o o' jl mr hu hg hru hrg
    have hul := upload_loop_congr o o' hu hru (mr + 1) 0
    have hgl := gen_loop_fst_congr o o' jl hg hrg (mr + 1) 0
    by_cases h : (Main.upload_loop o (mr + 1) 0).1 = true
    · have h' : (Main.upload_loop o' (mr + 1) 0).1 = true := by rw [← hul]; exact h
      simp [Main.extract_from_pdf, h, h', hgl]
    · have h0 : (Main.upload_loop o (mr + 1) 0).1 = false := by
        cases hb : (Main.upload_loop o (mr + 1) 0).1 with
        | false => rfl
        | true => exact absurd hb h
      have h' : (Main.upload_loop o' (mr + 1) 0).1 = false := by rw [← hul]; exact h0
      simp [Main.extract_from_pdf, h0, h']

/-- C9, witness: under the all-success oracle the trace holds the
delete, and the result is unchanged when every delete raises instead. -/
theorem C9_witness :
    Ev.deleteCall true ∈ (Main.extract_from_pdf svcOK jlGood 2).2 ∧
    (Main.extract_from_pdf svcOK jlGood 2).1 = (Main.extract_from_pdf svcDelFail jlGood 2).1 := by
  constructor
  · exact C9_thm.1 svcOK jlGood 2 (by decide)
  · exact C9_thm.2 svcOK svcDelFail jlGood 2 rfl rfl rfl rfl

/-- C10, counterexample: a response decoding to the empty JSON object is
returned by src/main.py's `extract_from_pdf` as a success, but the row
loop's `if extracted_data:` treats the empty dict as falsy: no column of
the row is written (L and the marker column V stay empty), the row is
logged as failed, and a subsequent run reprocesses it with a fresh
upload call — the opposite of the claimed fill-with-sentinels and
skip. -/
theorem C10_counterexample :
    (Main.extract_from_pdf svcEmptyObj jlEmptyObj 2).1 = some [] ∧
    (Main.processRow extMainEmpty exFiles ws0 row500 6).1 "L" 6 = none ∧
    (Main.processRow extMainEmpty exFiles ws0 row500 6).1 "V" 6 = none ∧
    (Main.processRow extMainEmpty exFiles ws0 row500 6).2.2
      = [LogM.processing 6 "500" "ProposalID_500_finalproposal.pdf",
         LogM.extractFailed "ProposalID_500_finalproposal.pdf"] ∧
    Ev.uploadCall ∈ (Main.processRow extMainEmpty exFiles
        ((Main.processRow extMainEmpty exFiles ws0 row500 6).1)
        ⟨(Main.processRow extMainEmpty exFiles ws0 row500 6).1 "V" 6, .str "500"⟩ 6).2.1 := by
  decide

/-- C10 (amended): when the response decodes to the empty object,
src/main.py's `extract_from_pdf` does accept it (no key validation) and
returns it, but `update_excel_with_proposals` treats the empty mapping
as a failed extraction: the row's sheet is unchanged (no sentinel
writes, marker cell not set) and the row is logged as failed, so it is
not skipped on later runs. -/
theorem C10_thm (o : Svc) (jl : String → Option JObj) (mr : Nat) (files : List Pdf)
    (ws : Sheet) (row : Row) (r : Nat) (tpn : String) (pdf : Pdf) (rest : List Pdf)
    (t : String)
    (h0 : row.facultyCell = none) (h1 : normalize_tpn row.tpn = some tpn)
    (h2 : resolve_pdfs Main.extract_tpn_from_filename files tpn = pdf :: rest)
    (hu : o.uploadOk 0 = true) (hg : o.gen 0 = .resp t)
    (hj : jl (Main.normalize_response t) = some []) :
    (Main.extract_from_pdf o jl mr).1 = some [] ∧
    Main.processRow (fun _ => Main.extract_from_pdf o jl mr) files ws row r
      = (ws, (Main.extract_from_pdf o jl mr).2 ++ [Ev.save],
         [LogM.processing r tpn pdf.name, LogM.extractFailed pdf.name]) := by
  have hup : Main.upload_loop o (mr + 1) 0 = (true, [Ev.uploadCall]) := by
    simp [Main.upload_loop, hu]
  have hge : (Main.gen_loop o jl (mr + 1) 0).1 = some [] :=
    gen_loop_succ o jl [] 0 (mr + 1) 0 t (by omega)
      (fun i hi => absurd hi (by omega)) (by simpa using hg) hj
  have hres : (Main.extract_from_pdf o jl mr).1 = some [] := by
    simp [Main.extract_from_pdf, hup, hge]
  exact ⟨hres, processRow_fail_empty (fun _ => Main.extract_from_pdf o jl mr)
    files ws row r tpn pdf rest h0 h1 h2 hres⟩

/-- C10, witness: the concrete empty-object scenario. -/
theorem C10_witness :
    (Main.extract_from_pdf svcEmptyObj jlEmptyObj 2).1 = some [] ∧
    Main.processRow extMainEmpty exFiles ws0 row500 6
      = (ws0, (Main.extract_from_pdf svcEmptyObj jlEmptyObj 2).2 ++ [Ev.save],
         [LogM.processing 6 "500" pdfA.name, LogM.extractFailed pdfA.name]) :=
  C10_thm svcEmptyObj jlEmptyObj 2 exFiles ws0 row500 6 "500" pdfA [] "\x7b\x7d"
    rfl (by decide) (by decide) rfl rfl (by decide)
